import Mathlib

/-!
# Verification of the HUGGING-FACE-SAGEMAKER-PIPELINE notebooks

A shallow embedding of the three notebooks of the repository:

* `workshop_4_distillation_and_acceleration/lab2_knowledge_distillation.ipynb`
  (the `DistillationTrainer.compute_loss` function and the notebook's
  deploy/predict/cleanup cells),
* the autoscaling notebook (`src/unnamed/part_000`): endpoint-name
  construction, predict payloads, autoscaling API calls, dashboard URLs,
  the thread-pool load test and the cleanup cell,
* the inference-options notebook (`src/unnamed/part_001`): role resolution,
  predict payloads for real-time / async / serverless inference, dashboard
  URLs and the cleanup cells.

Tensors of logits are embedded as `List (List ℝ)` (a batch of rows), JSON
payloads as an inductive `JValue`, f-strings as lists of segments, and the
notebooks' resource-lifecycle calls as lists of events.
-/

namespace HFSageMaker

/-! ## Knowledge distillation loss (`DistillationTrainer.compute_loss`)

The source (lab2_knowledge_distillation.ipynb, cell-13):

```python
def compute_loss(self, model, inputs, return_outputs=False):
    outputs_student = model(**inputs)
    student_loss = outputs_student.loss
    with torch.no_grad():
        outputs_teacher = self.teacher(**inputs)
    assert outputs_student.logits.size() == outputs_teacher.logits.size()
    loss_function = nn.KLDivLoss(reduction="batchmean")
    loss_logits = (
        loss_function(
            F.log_softmax(outputs_student.logits / self.args.temperature, dim=-1),
            F.softmax(outputs_teacher.logits / self.args.temperature, dim=-1),
        )
        * (self.args.temperature ** 2)
    )
    loss = self.args.alpha * student_loss + (1.0 - self.args.alpha) * loss_logits
    return (loss, outputs_student) if return_outputs else loss
```

The student forward pass (`outputs_student.loss`, the student's own
cross-entropy loss) and the teacher forward pass are calls into the external
`transformers` library, so the embedding takes `studentLoss`,
`studentLogits` and `teacherLogits` as inputs.  The failing `assert` is
embedded as `none`. -/

noncomputable section

/-- `tensor / T`: divide every entry of a batch of logit rows by the
temperature, as in `outputs.logits / self.args.temperature`. -/
def scaleRows (T : ℝ) (m : List (List ℝ)) : List (List ℝ) :=
  m.map (fun row => row.map (fun z => z / T))

/-- `F.softmax(row, dim=-1)`: entrywise `exp z / Σ exp`. -/
def softmax (row : List ℝ) : List ℝ :=
  row.map (fun z => Real.exp z / (row.map Real.exp).sum)

/-- `F.log_softmax(row, dim=-1)`: entrywise `z - log (Σ exp)`. -/
def logSoftmax (row : List ℝ) : List ℝ :=
  row.map (fun z => z - Real.log ((row.map Real.exp).sum))

/-- `nn.KLDivLoss(reduction="batchmean")(input, target)`:
pointwise `target * (log target - input)` (the `input` is in log space),
summed over all entries and divided by the batch size `input.size(0)`. -/
def klDivLossBatchmean (input target : List (List ℝ)) : ℝ :=
  ((target.zip input).map
    (fun rp => ((rp.1.zip rp.2).map
      (fun q => q.1 * (Real.log q.1 - q.2))).sum)).sum / (input.length : ℝ)

/-- The shape of a batch-of-rows tensor, compared by the
`assert outputs_student.logits.size() == outputs_teacher.logits.size()`. -/
def tensorShape (m : List (List ℝ)) : List ℕ :=
  m.map List.length

/-- `DistillationTrainer.compute_loss`.  `none` models the `AssertionError`
raised when the student and teacher logits differ in shape. -/
def compute_loss (alpha temperature studentLoss : ℝ)
    (studentLogits teacherLogits : List (List ℝ)) : Option ℝ :=
  if tensorShape studentLogits = tensorShape teacherLogits then
    some (alpha * studentLoss +
      (1 - alpha) *
        (klDivLossBatchmean
          ((scaleRows temperature studentLogits).map logSoftmax)
          ((scaleRows temperature teacherLogits).map softmax) *
         temperature ^ 2))
  else none

/-! ### The textbook loss, following the spec's words

"the returned loss is `alpha * L_CE + (1 - alpha) * T^2 *
KL(softmax(teacher_logits / T) || softmax(student_logits / T))`, where
`L_CE` is the student's own cross-entropy loss and both probability
distributions are softened by dividing the logits by `T` before the
softmax."  For a batch, the KL divergence is the batch mean of the
per-example KL divergences (which is what the `batchmean` reduction
computes). -/

/-- `KL(p || q) = Σ_i p_i * log (p_i / q_i)`. -/
def klDiv (p q : List ℝ) : ℝ :=
  ((p.zip q).map (fun x => x.1 * Real.log (x.1 / x.2))).sum

/-- A probability distribution softened by temperature `T`:
`softmax (logits / T)`. -/
def softened (T : ℝ) (row : List ℝ) : List ℝ :=
  softmax (row.map (fun z => z / T))

/-- The textbook distillation loss per the spec's words:
`alpha * L_CE + (1 - alpha) * T^2 * KL(softened teacher || softened student)`,
the KL divergence taken as the batch mean. -/
def distillationLossSpec (alpha T studentLoss : ℝ)
    (studentLogits teacherLogits : List (List ℝ)) : ℝ :=
  alpha * studentLoss +
    (1 - alpha) * T ^ 2 *
      (((teacherLogits.zip studentLogits).map
        (fun rp => klDiv (softened T rp.1) (softened T rp.2))).sum /
       (studentLogits.length : ℝ))

end

/-! ### Lemmas: the code's KLDivLoss row agrees with the textbook KL -/

theorem softmax_pos {row : List ℝ} (hrow : row ≠ []) {x : ℝ} (hx : x ∈ softmax row) :
    0 < x := by
  rcases List.mem_map.1 hx with ⟨z, _, rfl⟩
  refine div_pos (Real.exp_pos z) ?_
  refine List.sum_pos _ (fun y hy => ?_) ?_
  · rcases List.mem_map.1 hy with ⟨w, _, rfl⟩
    exact Real.exp_pos w
  · simpa using hrow

theorem expSum_pos {row : List ℝ} (hrow : row ≠ []) :
    0 < (row.map Real.exp).sum := by
  refine List.sum_pos _ (fun y hy => ?_) ?_
  · rcases List.mem_map.1 hy with ⟨w, _, rfl⟩
    exact Real.exp_pos w
  · simpa using hrow

/-- On any pair of rows, the `KLDivLoss` summand computed from
`softmax` of the teacher row and `log_softmax` of the student row equals
the textbook KL divergence `klDiv (softmax trow) (softmax srow)`. -/
theorem klRow_eq (trow srow : List ℝ) :
    (((softmax trow).zip (logSoftmax srow)).map
      (fun q => q.1 * (Real.log q.1 - q.2))).sum
      = klDiv (softmax trow) (softmax srow) := by
  unfold softmax logSoftmax klDiv
  rw [List.zip_map, List.zip_map, List.map_map, List.map_map]
  refine congrArg List.sum (List.map_congr_left ?_)
  rintro ⟨a, b⟩ hab
  obtain ⟨ha, hb⟩ := List.of_mem_zip hab
  have htrow : trow ≠ [] := List.ne_nil_of_mem ha
  have hsrow : srow ≠ [] := List.ne_nil_of_mem hb
  have hSt : 0 < (trow.map Real.exp).sum := expSum_pos htrow
  have hSs : 0 < (srow.map Real.exp).sum := expSum_pos hsrow
  have hp : (0 : ℝ) < Real.exp a / (trow.map Real.exp).sum :=
    div_pos (Real.exp_pos a) hSt
  have hq : (0 : ℝ) < Real.exp b / (srow.map Real.exp).sum :=
    div_pos (Real.exp_pos b) hSs
  simp only [Function.comp, Prod.map]
  rw [Real.log_div hp.ne' hq.ne',
    Real.log_div (Real.exp_pos b).ne' hSs.ne', Real.log_exp]

/-- C1. The loss returned by `DistillationTrainer.compute_loss` equals the
textbook blend `alpha * L_CE + (1 - alpha) * T^2 *
KL(softmax(teacher/T) || softmax(student/T))` (KL taken as the batch mean,
which is what the `batchmean` reduction computes), for every batch on which
the shape assertion passes. -/
theorem compute_loss_eq_textbook (alpha T c : ℝ)
    (s t : List (List ℝ)) (h : tensorShape s = tensorShape t) :
    compute_loss alpha T c s t = some (distillationLossSpec alpha T c s t) := by
  unfold compute_loss distillationLossSpec
  rw [if_pos h]
  refine congrArg some ?_
  have hlen : ((scaleRows T s).map logSoftmax).length = s.length := by
    simp [scaleRows]
  have hbatch :
      ((((scaleRows T t).map softmax).zip ((scaleRows T s).map logSoftmax)).map
        (fun rp => ((rp.1.zip rp.2).map
          (fun q => q.1 * (Real.log q.1 - q.2))).sum)).sum
      = ((t.zip s).map
          (fun rp => klDiv (softened T rp.1) (softened T rp.2))).sum := by
    unfold scaleRows softened
    rw [List.map_map, List.map_map, List.zip_map, List.map_map]
    refine congrArg List.sum (List.map_congr_left ?_)
    rintro ⟨trow, srow⟩ _
    simpa using klRow_eq (trow.map (fun z => z / T)) (srow.map (fun z => z / T))
  unfold klDivLossBatchmean
  rw [hbatch, hlen]
  ring

/-- C1 witness: the theorem applied to the concrete batch
`student = [[0]]`, `teacher = [[1]]` with `alpha = 1/2`, `T = 2`,
`L_CE = 3`. -/
theorem compute_loss_eq_textbook_witness :
    compute_loss (1/2) 2 3 [[0]] [[1]]
      = some (distillationLossSpec (1/2) 2 3 [[0]] [[1]]) :=
  compute_loss_eq_textbook (1/2) 2 3 [[0]] [[1]] (by decide)

/-- C10. `compute_loss` returns a loss exactly when the student's and
teacher's logits tensors have identical shape; on a shape mismatch the
assertion fails (`none`, the `AssertionError`) and no loss is returned. -/
theorem compute_loss_isSome_iff_shapes_match
    (alpha T c : ℝ) (s t : List (List ℝ)) :
    (compute_loss alpha T c s t).isSome
      = decide (tensorShape s = tensorShape t) := by
  unfold compute_loss
  by_cases h : tensorShape s = tensorShape t
  · rw [if_pos h]
    simp [h]
  · rw [if_neg h]
    simp [h]

/-! ## Request payloads of the prediction calls (all three notebooks)

A JSON value, and the payload passed to each `predict` invocation,
transcribed from the notebooks in source order. -/

/-- A JSON value as the notebooks build them with Python dict/list/string
literals. -/
inductive JValue where
  | str (s : String)
  | num (q : ℚ)
  | arr (elems : List JValue)
  | obj (fields : List (String × JValue))

/-- Python string repetition `s * n`. -/
def pyStrMul (s : String) (n : ℕ) : String :=
  String.join (List.replicate n s)

/-- part_000: `data = {"inputs": "There is a shortage of capital ..."}`. -/
def data_000 : JValue :=
  .obj [("inputs",
    .str "There is a shortage of capital for project SageMaker. We need extra financing")]

/-- part_001, real-time from-Hub endpoint: a question-answering payload. -/
def data_rth : JValue :=
  .obj [("inputs", .obj [
    ("question", .str "What is used for inference?"),
    ("context",
      .str "My Name is Philipp and I live in Nuremberg. This model is used with sagemaker for inference.")])]

/-- part_001, real-time from-S3 endpoint payload. -/
def data_rts3 : JValue :=
  .obj [("inputs",
    .str "The new Hugging Face SageMaker DLC makes it super easy to deploy models in production. I love it!")]

/-- part_001, asynchronous endpoint payload: a list of four sentences. -/
def data_async : JValue :=
  .obj [("inputs", .arr [
    .str "it 's a charming and often affecting journey .",
    .str "it 's slow -- very , very slow",
    .str "the mesmerizing performances of the leads keep the film grounded and keep the audience riveted .",
    .str "the emotions are raw and will strike a nerve with anyone who 's ever had family trauma ."])]

/-- part_001, serverless endpoint: `predictor_sls.predict(data=audio_path)`
passes the plain file-path string `"sample1.flac"`; the attached
`DataSerializer (content_type audio/x-audio)` sends the raw audio bytes. -/
def data_sls : JValue :=
  .str "sample1.flac"

/-- lab2: `sentiment_input = {"inputs": "Harry believes it, ..." * 9}`. -/
def sentiment_input : JValue :=
  .obj [("inputs",
    .str (pyStrMul "Harry believes it, although no one else believes that Sally is innocent." 9))]

/-- One `predict` invocation: the predictor it is called on and the payload
it sends. -/
structure PredictCall where
  predictor : String
  payload : JValue

/-- part_000's predict invocations in source order: the example request, the
`for i in range(500)` warm-up loop, and the 200 thread-pool submissions of
the load test (`executor.submit(predictor.predict, data)`). -/
def predictCalls_000 : List PredictCall :=
  ⟨"predictor", data_000⟩ ::
    ((List.range 500).map (fun _ => ⟨"predictor", data_000⟩) ++
     (List.range 200).map (fun _ => ⟨"predictor", data_000⟩))

/-- part_001's predict invocations in source order (the batch-transform job
submits no `predict` call). -/
def predictCalls_001 : List PredictCall :=
  [⟨"predictor_rth", data_rth⟩,
   ⟨"predictor_rts3", data_rts3⟩,
   ⟨"async_predictor", data_async⟩,
   ⟨"predictor_sls", data_sls⟩]

/-- lab2's predict invocations: `for i in range(1000): predictor.predict(sentiment_input)`. -/
def predictCalls_lab2 : List PredictCall :=
  (List.range 1000).map (fun _ => ⟨"predictor", sentiment_input⟩)

/-- Every `predict` invocation of the repository. -/
def allPredictCalls : List PredictCall :=
  predictCalls_000 ++ predictCalls_001 ++ predictCalls_lab2

/-- Whether a payload is a JSON object with an `"inputs"` field whose other
fields (if any) are all `"parameters"`. -/
def isInputsPayload : JValue → Bool
  | .obj fields =>
      fields.any (fun f => f.1 == "inputs") &&
      fields.all (fun f => f.1 == "inputs" || f.1 == "parameters")
  | _ => false

theorem serverless_call_mem :
    (⟨"predictor_sls", data_sls⟩ : PredictCall) ∈ allPredictCalls := by
  have h1 : (⟨"predictor_sls", data_sls⟩ : PredictCall) ∈ predictCalls_001 := by
    unfold predictCalls_001
    exact List.mem_cons_of_mem _ (List.mem_cons_of_mem _
      (List.mem_cons_of_mem _ (List.mem_cons_self _ _)))
  unfold allPredictCalls
  exact List.mem_append_left _ (List.mem_append_right _ h1)

/-- C2 counterexample: the serverless predict invocation of part_001 sends
the file-path string `"sample1.flac"` (serialized as raw audio bytes), not a
JSON object with an `"inputs"` field, so not every predict payload is such
an object. -/
theorem serverless_predict_payload_not_inputs_object :
    isInputsPayload data_sls = false ∧
    ¬ (∀ c ∈ allPredictCalls, isInputsPayload c.payload = true) := by
  refine ⟨rfl, fun h => ?_⟩
  simpa [isInputsPayload, data_sls] using h _ serverless_call_mem

set_option maxRecDepth 40000

/-- C2 amended: the only predict invocation whose payload is not a JSON
object with an `"inputs"` field (and optional `"parameters"`) is the
serverless one, which sends the audio file path `"sample1.flac"` through a
`DataSerializer`. -/
theorem predict_payloads_inputs_object_except_serverless :
    allPredictCalls.filter (fun c => !(isInputsPayload c.payload))
      = [⟨"predictor_sls", data_sls⟩] := by
  rfl

/-! ## Exception handling (C3): the role-resolution `try/except`

part_001 (and identically lab2_knowledge_distillation):

```python
try:
    role = sagemaker.get_execution_role()
except ValueError:
    iam = boto3.client('iam')
    role = iam.get_role(RoleName='sagemaker_execution_role')['Role']['Arn']
```

The outcome of `sagemaker.get_execution_role()` and the ARN returned by the
IAM lookup are external inputs. -/

/-- A Python exception as far as the notebooks distinguish them. -/
inductive PyExc where
  | valueError
  | other (name : String)
deriving DecidableEq

/-- The role-resolution cell: `ValueError` from `get_execution_role` is
caught and the IAM fallback ARN is used; any other exception propagates. -/
def resolveRole (executionRole : Except PyExc String) (iamRoleArn : String) :
    Except PyExc String :=
  match executionRole with
  | .ok r => .ok r
  | .error e => if e = PyExc.valueError then .ok iamRoleArn else .error e

/-- A call into an external SDK as it appears in a notebook, together with
the exception class of the `try/except` that encloses it (`none` when the
call is bare). -/
structure SdkCallSite where
  notebook : String
  callName : String
  handler : Option String
deriving DecidableEq

/-- Every external-SDK call of the three notebooks, in source order, with
its enclosing exception handler. -/
def sdkCallSites : List SdkCallSite :=
  [⟨"part_000", "sagemaker.get_execution_role", none⟩,
   ⟨"part_000", "HuggingFaceModel", none⟩,
   ⟨"part_000", "huggingface_model.deploy", none⟩,
   ⟨"part_000", "predictor.predict", none⟩,
   ⟨"part_000", "asg_client.register_scalable_target", none⟩,
   ⟨"part_000", "asg_client.put_scaling_policy", none⟩,
   ⟨"part_000", "bt_sm.describe_endpoint", none⟩,
   ⟨"part_000", "predictor.delete_endpoint", none⟩,
   ⟨"part_001", "sagemaker.Session", none⟩,
   ⟨"part_001", "sess.default_bucket", none⟩,
   ⟨"part_001", "sagemaker.get_execution_role", some "ValueError"⟩,
   ⟨"part_001", "iam.get_role", none⟩,
   ⟨"part_001", "HuggingFaceModel", none⟩,
   ⟨"part_001", "huggingface_model_rth.deploy", none⟩,
   ⟨"part_001", "predictor_rth.predict", none⟩,
   ⟨"part_001", "predictor_rth.delete_model", none⟩,
   ⟨"part_001", "predictor_rth.delete_endpoint", none⟩,
   ⟨"part_001", "huggingface_model_rts3.deploy", none⟩,
   ⟨"part_001", "predictor_rts3.predict", none⟩,
   ⟨"part_001", "predictor_rts3.delete_model", none⟩,
   ⟨"part_001", "predictor_rts3.delete_endpoint", none⟩,
   ⟨"part_001", "S3Uploader.upload", none⟩,
   ⟨"part_001", "huggingface_model.transformer", none⟩,
   ⟨"part_001", "batch_job.transform", none⟩,
   ⟨"part_001", "huggingface_model_async.deploy", none⟩,
   ⟨"part_001", "async_predictor.predict", none⟩,
   ⟨"part_001", "async_predictor.delete_model", none⟩,
   ⟨"part_001", "async_predictor.delete_endpoint", none⟩,
   ⟨"part_001", "huggingface_model_sls.deploy", none⟩,
   ⟨"part_001", "predictor_sls.predict", none⟩,
   ⟨"part_001", "predictor_sls.delete_model", none⟩,
   ⟨"part_001", "predictor_sls.delete_endpoint", none⟩,
   ⟨"lab2_knowledge_distillation", "notebook_login", none⟩,
   ⟨"lab2_knowledge_distillation", "sagemaker.Session", none⟩,
   ⟨"lab2_knowledge_distillation", "sess.default_bucket", none⟩,
   ⟨"lab2_knowledge_distillation", "sagemaker.get_execution_role", some "ValueError"⟩,
   ⟨"lab2_knowledge_distillation", "iam.get_role", none⟩,
   ⟨"lab2_knowledge_distillation", "HuggingFace", none⟩,
   ⟨"lab2_knowledge_distillation", "huggingface_estimator.fit", none⟩,
   ⟨"lab2_knowledge_distillation", "huggingface_estimator.deploy", none⟩,
   ⟨"lab2_knowledge_distillation", "predictor.predict", none⟩,
   ⟨"lab2_knowledge_distillation", "predictor.delete_endpoint", none⟩]

/-- C3 counterexample: the role-resolution cell recovers from a
`ValueError` raised by `sagemaker.get_execution_role()` (returning the IAM
fallback ARN instead of propagating it), and the repository does contain a
`try/except` around an SDK call. -/
theorem role_resolution_catches_valueError :
    resolveRole (Except.error PyExc.valueError)
        "arn:aws:iam::558105141721:role/sagemaker_execution_role"
      = Except.ok "arn:aws:iam::558105141721:role/sagemaker_execution_role" ∧
    ¬ (∀ c ∈ sdkCallSites, c.handler = none) := by
  refine ⟨rfl, fun h => ?_⟩
  have := h ⟨"part_001", "sagemaker.get_execution_role", some "ValueError"⟩ (by decide)
  simp at this

/-- C3 amended: the only exception handling in the repository is the
role-resolution `try/except` of part_001 and of the distillation notebook;
it catches exactly `ValueError` from `get_execution_role` and falls back to
the IAM role ARN, while every other exception and every success propagate
unchanged. -/
theorem only_role_resolution_catches :
    sdkCallSites.filter (fun c => c.handler.isSome)
      = [⟨"part_001", "sagemaker.get_execution_role", some "ValueError"⟩,
         ⟨"lab2_knowledge_distillation", "sagemaker.get_execution_role", some "ValueError"⟩] ∧
    (∀ (r arn : String), resolveRole (Except.ok r) arn = Except.ok r) ∧
    (∀ (e : PyExc) (arn : String),
      resolveRole (Except.error e) arn
        = if e = PyExc.valueError then Except.ok arn else Except.error e) := by
  exact ⟨by decide, fun r arn => rfl, fun e arn => rfl⟩

/-! ## Autoscaling configuration (part_000, C4)

```python
resource_id = f"endpoint/{predictor.endpoint_name}/variant/AllTraffic"
response = asg_client.register_scalable_target(
    ServiceNamespace='sagemaker', ResourceId=resource_id,
    ScalableDimension='sagemaker:variant:DesiredInstanceCount',
    MinCapacity=1, MaxCapacity=4)
response = asg_client.put_scaling_policy(...)
```
-/

/-- The arguments of `asg_client.register_scalable_target`. -/
structure ScalableTarget where
  serviceNamespace : String
  resourceId : String
  scalableDimension : String
  minCapacity : ℕ
  maxCapacity : ℕ
deriving DecidableEq

/-- `CustomizedMetricSpecification` of the scaling policy. -/
structure MetricSpec where
  metricName : String
  metricNamespace : String
  dimensions : List (String × String)
  statistic : String
  unit : String
deriving DecidableEq

/-- `TargetTrackingScalingPolicyConfiguration`. -/
structure TargetTrackingConfig where
  targetValue : ℚ
  metricSpec : MetricSpec
  scaleInCooldown : ℕ
  scaleOutCooldown : ℕ
deriving DecidableEq

/-- The arguments of `asg_client.put_scaling_policy`. -/
structure ScalingPolicy where
  policyName : String
  serviceNamespace : String
  resourceId : String
  scalableDimension : String
  policyType : String
  config : TargetTrackingConfig
deriving DecidableEq

/-- An Application Auto Scaling API call issued by part_000. -/
inductive AsgCall where
  | register (t : ScalableTarget)
  | putPolicy (p : ScalingPolicy)
deriving DecidableEq

/-- `resource_id = f"endpoint/{predictor.endpoint_name}/variant/AllTraffic"`. -/
def resource_id (endpointName : String) : String :=
  "endpoint/" ++ endpointName ++ "/variant/AllTraffic"

/-- The `register_scalable_target` call of part_000. -/
def registerScalableTargetCall (endpointName : String) : ScalableTarget :=
  { serviceNamespace := "sagemaker"
    resourceId := resource_id endpointName
    scalableDimension := "sagemaker:variant:DesiredInstanceCount"
    minCapacity := 1
    maxCapacity := 4 }

/-- The `put_scaling_policy` call of part_000. -/
def putScalingPolicyCall (endpointName : String) : ScalingPolicy :=
  { policyName := "CPUUtil-ScalingPolicy-" ++ endpointName
    serviceNamespace := "sagemaker"
    resourceId := resource_id endpointName
    scalableDimension := "sagemaker:variant:DesiredInstanceCount"
    policyType := "TargetTrackingScaling"
    config :=
      { targetValue := 50
        metricSpec :=
          { metricName := "CPUUtilization"
            metricNamespace := "/aws/sagemaker/Endpoints"
            dimensions := [("EndpointName", endpointName), ("VariantName", "AllTraffic")]
            statistic := "Average"
            unit := "Percent" }
        scaleInCooldown := 300
        scaleOutCooldown := 100 } }

/-- The Application Auto Scaling calls of part_000, in source order. -/
def autoscalingCalls (endpointName : String) : List AsgCall :=
  [.register (registerScalableTargetCall endpointName),
   .putPolicy (putScalingPolicyCall endpointName)]

/-- Projects a `register_scalable_target` call. -/
def asRegister : AsgCall → Option ScalableTarget
  | .register t => some t
  | _ => none

/-- Projects a `put_scaling_policy` call. -/
def asPolicy : AsgCall → Option ScalingPolicy
  | .putPolicy p => some p
  | _ => none

/-- C4. For every endpoint name, the autoscaling configuration registers
exactly one scalable target — for the endpoint variant's desired instance
count, with minimum capacity 1 and maximum capacity 4 — and installs
exactly one scaling policy: a target-tracking policy on the average
`CPUUtilization` of the endpoint's `AllTraffic` variant with target value
50 percent, scale-in cooldown 300 s and scale-out cooldown 100 s. -/
theorem autoscaling_config_as_specified (endpointName : String) :
    ∃ t,
      (autoscalingCalls endpointName).filterMap asRegister = [t] ∧
      t.serviceNamespace = "sagemaker" ∧
      t.resourceId = "endpoint/" ++ endpointName ++ "/variant/AllTraffic" ∧
      t.scalableDimension = "sagemaker:variant:DesiredInstanceCount" ∧
      t.minCapacity = 1 ∧
      t.maxCapacity = 4 ∧
    ∃ p,
      (autoscalingCalls endpointName).filterMap asPolicy = [p] ∧
      p.policyType = "TargetTrackingScaling" ∧
      p.resourceId = t.resourceId ∧
      p.config.targetValue = 50 ∧
      p.config.metricSpec.metricName = "CPUUtilization" ∧
      p.config.metricSpec.statistic = "Average" ∧
      p.config.metricSpec.unit = "Percent" ∧
      p.config.metricSpec.dimensions
        = [("EndpointName", endpointName), ("VariantName", "AllTraffic")] ∧
      p.config.scaleInCooldown = 300 ∧
      p.config.scaleOutCooldown = 100 :=
  ⟨registerScalableTargetCall endpointName,
    rfl, rfl, rfl, rfl, rfl, rfl,
   putScalingPolicyCall endpointName,
    rfl, rfl, rfl, rfl, rfl, rfl, rfl, rfl, rfl, rfl⟩

/-! ## Resource lifecycle of each notebook (C5, C6)

Every deploy / cleanup call of the notebooks, in source order.  A bare
attribute reference such as lab2's `predictor.delete_model` (no
parentheses) is its own event kind: it invokes nothing. -/

/-- A lifecycle-relevant line of a notebook. -/
inductive LifecycleEvent where
  | deploy (predictor : String)
  | deleteEndpoint (predictor : String)
  | deleteModel (predictor : String)
  | attrDeleteModel (predictor : String)
deriving DecidableEq

/-- part_000: deploys `predictor`, cleanup cell runs
`predictor.delete_endpoint()`. -/
def lifecycle_000 : List LifecycleEvent :=
  [.deploy "predictor", .deleteEndpoint "predictor"]

/-- part_001: four endpoints, each torn down with `delete_model()` then
`delete_endpoint()` (the batch-transform job deploys no endpoint). -/
def lifecycle_001 : List LifecycleEvent :=
  [.deploy "predictor_rth", .deleteModel "predictor_rth", .deleteEndpoint "predictor_rth",
   .deploy "predictor_rts3", .deleteModel "predictor_rts3", .deleteEndpoint "predictor_rts3",
   .deploy "async_predictor", .deleteModel "async_predictor", .deleteEndpoint "async_predictor",
   .deploy "predictor_sls", .deleteModel "predictor_sls", .deleteEndpoint "predictor_sls"]

/-- lab2: deploys `predictor`; the cleanup cell is
`predictor.delete_model` (a bare attribute reference, not a call) followed
by `predictor.delete_endpoint()`. -/
def lifecycle_lab2 : List LifecycleEvent :=
  [.deploy "predictor", .attrDeleteModel "predictor", .deleteEndpoint "predictor"]

/-- The three notebooks with their lifecycle events. -/
def notebookLifecycles : List (String × List LifecycleEvent) :=
  [("part_000", lifecycle_000),
   ("part_001", lifecycle_001),
   ("lab2_knowledge_distillation", lifecycle_lab2)]

/-- Every `deploy` is followed, later in the notebook, by a
`delete_endpoint()` on the same predictor. -/
def endpointsDeleted : List LifecycleEvent → Bool
  | [] => true
  | LifecycleEvent.deploy p :: rest =>
      rest.contains (LifecycleEvent.deleteEndpoint p) && endpointsDeleted rest
  | _ :: rest => endpointsDeleted rest

/-- C5. In every notebook, every predictor that is deployed has
`delete_endpoint()` invoked on it later in the notebook: each notebook's
teardown deletes every endpoint it created. -/
theorem every_deployed_endpoint_deleted :
    notebookLifecycles.all (fun nb => endpointsDeleted nb.2) = true := by
  decide

/-- Whether an event is a `delete_model()` call. -/
def isDeleteModelCall : LifecycleEvent → Bool
  | .deleteModel _ => true
  | _ => false

/-- Whether an event is a bare `delete_model` attribute reference. -/
def isBareDeleteModelAttr : LifecycleEvent → Bool
  | .attrDeleteModel _ => true
  | _ => false

/-- C6. lab2's cleanup evaluates `predictor.delete_model` as a bare
attribute reference (calling nothing), so the notebook never invokes
`delete_model()` and its cleanup deletes only the endpoint, while the other
notebooks contain no bare `delete_model` reference: every `delete_model`
they write is a call. -/
theorem lab2_delete_model_not_called :
    lifecycle_lab2.contains (LifecycleEvent.attrDeleteModel "predictor") = true ∧
    lifecycle_lab2.all (fun e => !(isDeleteModelCall e)) = true ∧
    lifecycle_lab2.contains (LifecycleEvent.deleteEndpoint "predictor") = true ∧
    (lifecycle_000 ++ lifecycle_001).all (fun e => !(isBareDeleteModelAttr e)) = true := by
  decide

/-! ## Monitoring dashboard URLs (C7)

Each dashboard URL is an f-string: a sequence of literal chunks and
interpolations of `aws_region` (the session region) and
`predictor.endpoint_name`. -/

/-- A segment of a dashboard URL f-string. -/
inductive UrlSeg where
  | lit (s : String)
  | regionVar
  | endpointVar
deriving DecidableEq

/-- Evaluates the f-string for a session region and an endpoint name. -/
def renderUrl (region endpointName : String) : List UrlSeg → String
  | [] => ""
  | UrlSeg.lit s :: rest => s ++ renderUrl region endpointName rest
  | UrlSeg.regionVar :: rest => region ++ renderUrl region endpointName rest
  | UrlSeg.endpointVar :: rest => endpointName ++ renderUrl region endpointName rest

/-- part_000, `ModelLatency` dashboard URL: interpolates `aws_region` twice
and `predictor.endpoint_name` in the query; the metrics-graph portion holds
a hardcoded `finbert-tone-...` endpoint name from a past run. -/
def modelLatencyUrl_000 : List UrlSeg :=
  [.lit "https://console.aws.amazon.com/cloudwatch/home?region=",
   .regionVar,
   .lit "#metricsV2:graph=~(metrics~(~(~'AWS*2fSageMaker~'ModelLatency~'EndpointName~'finbert-tone-73d26f97-9376-4b3f-9334-a2-2021-10-29-12-18-52-365~'VariantName~'AllTraffic))~view~'timeSeries~stacked~false~start~'-PT15M~end~'P0D~region~'",
   .regionVar,
   .lit "~stat~'SampleCount~period~30);query=~'*7bAWS*2fSageMaker*2cEndpointName*2cVariantName*7d*20",
   .endpointVar]

/-- part_000, `CPUUtilization` dashboard URL: interpolates `aws_region`
twice and `predictor.endpoint_name` in the trailing text; the metrics-graph
and query portions hold the hardcoded `finbert-tone-...` endpoint name. -/
def cpuUtilizationUrl_000 : List UrlSeg :=
  [.lit "https://console.aws.amazon.com/cloudwatch/home?region=",
   .regionVar,
   .lit "#metricsV2:graph=~(metrics~(~(~'*2faws*2fsagemaker*2fEndpoints~'CPUUtilization~'EndpointName~'finbert-tone-73d26f97-9376-4b3f-9334-a2-2021-10-29-12-18-52-365~'VariantName~'AllTraffic))~view~'timeSeries~stacked~false~region~'",
   .regionVar,
   .lit "~start~'-PT15M~end~'P0D~stat~'Average~period~60);query=~'*7b*2faws*2fsagemaker*2fEndpoints*2cEndpointName*2cVariantName*7d*20finbert-tone-73d26f97-9376-4b3f-9334-a2-2021-10-29-12-18-52-365*20Endpoint*20",
   .endpointVar,
   .lit "*20has*20Current*20Instance*20Count*3a*201*20With*20a*20desired*20instance*20count*20of*201"]

/-- lab2, `ModelLatency` dashboard URL: interpolates
`predictor.endpoint_name` twice but hardcodes the region `us-east-1` in
both places where a region appears. -/
def modelLatencyUrl_lab2 : List UrlSeg :=
  [.lit "https://us-east-1.console.aws.amazon.com/cloudwatch/home?region=us-east-1#metricsV2:graph=~(metrics~(~(~'AWS*2fSageMaker~'ModelLatency~'EndpointName~'",
   .endpointVar,
   .lit "~'VariantName~'AllTraffic))~view~'timeSeries~stacked~false~region~'us-east-1~start~'-PT10M~end~'P0D~stat~'p99~period~300);query=~'*7bAWS*2fSageMaker*2cEndpointName*2cVariantName*7d*20",
   .endpointVar]

/-- Every dashboard URL assembled for display in the repository. -/
def dashboardUrls : List (List UrlSeg) :=
  [modelLatencyUrl_000, cpuUtilizationUrl_000, modelLatencyUrl_lab2]

/-- C7 counterexample: the distillation notebook's dashboard URL does not
interpolate the session region (both region positions are the hardcoded
literal `us-east-1`), so not every dashboard URL interpolates the current
session's AWS region and the endpoint name. -/
theorem lab2_dashboard_url_hardcodes_region :
    UrlSeg.regionVar ∉ modelLatencyUrl_lab2 ∧
    ¬ (∀ u ∈ dashboardUrls, UrlSeg.regionVar ∈ u ∧ UrlSeg.endpointVar ∈ u) := by
  refine ⟨by decide, fun h => ?_⟩
  have := (h modelLatencyUrl_lab2 (by decide)).1
  revert this
  decide

/-- C7 amended: the two autoscaling-notebook dashboard URLs interpolate
both the session region and the deployed predictor's endpoint name; the
distillation notebook's dashboard URL interpolates the endpoint name but
hardcodes region `us-east-1`, so the URL it displays is the same for every
session region. -/
theorem dashboard_urls_interpolation :
    (UrlSeg.regionVar ∈ modelLatencyUrl_000 ∧ UrlSeg.endpointVar ∈ modelLatencyUrl_000) ∧
    (UrlSeg.regionVar ∈ cpuUtilizationUrl_000 ∧ UrlSeg.endpointVar ∈ cpuUtilizationUrl_000) ∧
    (UrlSeg.endpointVar ∈ modelLatencyUrl_lab2 ∧ UrlSeg.regionVar ∉ modelLatencyUrl_lab2) ∧
    (∀ region region' endpointName : String,
      renderUrl region endpointName modelLatencyUrl_lab2
        = renderUrl region' endpointName modelLatencyUrl_lab2) :=
  ⟨⟨by decide, by decide⟩, ⟨by decide, by decide⟩, ⟨by decide, by decide⟩,
   fun _ _ _ => rfl⟩

/-! ## The thread-pool load test (part_000, C8)

```python
workers = os.cpu_count() * 5
requests = 200
with ThreadPoolExecutor(max_workers=workers) as executor:
    for i in range(requests):
        executor.submit(predictor.predict, data)
```
-/

/-- `requests = 200`. -/
def loadTestRequests : ℕ := 200

/-- `workers = os.cpu_count() * 5`. -/
def loadTestWorkers (cpuCount : ℕ) : ℕ := cpuCount * 5

/-- The tasks submitted to the executor:
`for i in range(requests): executor.submit(predictor.predict, data)`. -/
def loadTestSubmissions : List PredictCall :=
  (List.range loadTestRequests).map (fun _ => ⟨"predictor", data_000⟩)

/-- C8. The load test submits exactly 200 tasks — each a
`predictor.predict` call on the fixed payload `data` — and nothing else, to
a pool whose maximum worker count is five times the machine's CPU count. -/
theorem load_test_submits_200_predicts (cpuCount : ℕ) :
    loadTestWorkers cpuCount = 5 * cpuCount ∧
    loadTestSubmissions.length = 200 ∧
    loadTestSubmissions
      = List.replicate 200 ⟨"predictor", data_000⟩ := by
  refine ⟨Nat.mul_comm cpuCount 5, rfl, ?_⟩
  rfl

/-! ## Endpoint/model name construction (part_000, C9)

```python
endpoint_name = f'{hub["HF_MODEL_ID"].split("/")[1]}-{str(uuid4())}'
huggingface_model = HuggingFaceModel(env=hub, role=role, name=endpoint_name, ...)
```

Strings are embedded as `List Char` here so the construction stays fully
computable.  `none` models the `IndexError` raised by `[1]` when the split
yields fewer than two fields; the model object is only created after the
name, so the error precedes it. -/

/-- Python `s.split(sep)` for a one-character separator: the list of
(possibly empty) fields between occurrences of `sep`. -/
def splitOn (sep : Char) : List Char → List (List Char)
  | [] => [[]]
  | c :: cs =>
    if c = sep then [] :: splitOn sep cs
    else (c :: (splitOn sep cs).headI) :: (splitOn sep cs).tail

/-- The characters after the first occurrence of `sep` (`none` when `sep`
does not occur): the "substring after the first separator" of the claim. -/
def afterFirstSep (sep : Char) : List Char → Option (List Char)
  | [] => none
  | c :: cs => if c = sep then some cs else afterFirstSep sep cs

/-- `endpoint_name`: the second field of the `'/'`-split of the model id,
a `'-'`, and the uuid; `none` is the `IndexError` of `split("/")[1]`. -/
def endpointNameOf (modelId uuid : List Char) : Option (List Char) :=
  ((splitOn '/' modelId).get? 1).map (fun field => field ++ '-' :: uuid)

/-- The `HuggingFaceModel` object as far as the name construction concerns
it: the hub env model id and the `name=endpoint_name` argument. -/
structure HuggingFaceModelObj where
  envModelId : List Char
  name : List Char
deriving DecidableEq

/-- The deploy cell of part_000: builds `endpoint_name`, then constructs
`HuggingFaceModel(env=hub, name=endpoint_name, ...)`; when the name
construction raises, no model object is created. -/
def createModelCell (modelId uuid : List Char) : Option HuggingFaceModelObj :=
  (endpointNameOf modelId uuid).map (fun n => ⟨modelId, n⟩)

/-- The construction as the claim words it: the substring of the model id
after its first `'/'`, then `'-'` and the uuid. -/
def claimedEndpointName (modelId uuid : List Char) : Option (List Char) :=
  (afterFirstSep '/' modelId).map (fun suffix => suffix ++ '-' :: uuid)

theorem splitOn_ne_nil (sep : Char) (l : List Char) : splitOn sep l ≠ [] := by
  cases l with
  | nil => simp [splitOn]
  | cons c cs =>
    simp only [splitOn]
    split <;> simp

theorem splitOn_head (sep : Char) (l : List Char) :
    (splitOn sep l).head? = some (l.takeWhile (fun c => c != sep)) := by
  induction l with
  | nil => rfl
  | cons c cs ih =>
    simp only [splitOn]
    by_cases hc : c = sep
    · rw [if_pos hc]
      simp [List.takeWhile, hc]
    · rw [if_neg hc]
      cases h : splitOn sep cs with
      | nil => exact absurd h (splitOn_ne_nil sep cs)
      | cons f r =>
        rw [h] at ih
        simp only [List.head?, Option.some.injEq] at ih
        have hb : (c != sep) = true := by simp [hc]
        simp [List.takeWhile, hc, h, ← ih, hb]

/-- Element 1 of the split is the stretch after the first separator, cut at
the next separator. -/
theorem splitOn_get?_one (sep : Char) (l : List Char) :
    (splitOn sep l).get? 1
      = (afterFirstSep sep l).map (List.takeWhile (fun c => c != sep)) := by
  induction l with
  | nil => rfl
  | cons c cs ih =>
    simp only [splitOn, afterFirstSep]
    by_cases hc : c = sep
    · rw [if_pos hc, if_pos hc]
      have hh := splitOn_head sep cs
      simp only [List.get?, Option.map_some']
      cases h : splitOn sep cs with
      | nil => exact absurd h (splitOn_ne_nil sep cs)
      | cons f r =>
        rw [h] at hh
        simpa using hh
    · rw [if_neg hc, if_neg hc]
      cases h : splitOn sep cs with
      | nil => exact absurd h (splitOn_ne_nil sep cs)
      | cons f r =>
        rw [h] at ih
        simpa using ih

theorem afterFirstSep_eq_none (sep : Char) (l : List Char) (h : sep ∉ l) :
    afterFirstSep sep l = none := by
  induction l with
  | nil => rfl
  | cons c cs ih =>
    simp only [afterFirstSep]
    rw [if_neg (fun hc : c = sep => h (by simp [hc]))]
    exact ih (fun hm => h (List.mem_cons_of_mem _ hm))

/-- C9 counterexample: on the model id `"a/b/c"` the code's
`split("/")[1]` yields the field `"b"`, not the substring `"b/c"` after the
first `'/'`; the two constructions disagree. -/
theorem endpoint_name_not_substring_after_first_slash :
    endpointNameOf ['a', '/', 'b', '/', 'c'] ['u'] = some ['b', '-', 'u'] ∧
    claimedEndpointName ['a', '/', 'b', '/', 'c'] ['u'] = some ['b', '/', 'c', '-', 'u'] ∧
    endpointNameOf ['a', '/', 'b', '/', 'c'] ['u']
      ≠ claimedEndpointName ['a', '/', 'b', '/', 'c'] ['u'] := by
  decide

/-- C9 amended: the endpoint/model name is the second `'/'`-separated field
of `HF_MODEL_ID` (the characters after the first `'/'` up to the next one)
followed by `'-'` and the fresh uuid; distinct uuids give distinct names,
and for a model id without `'/'` the construction fails (`IndexError`)
before any model object is created. -/
theorem endpoint_name_construction :
    (∀ modelId uuid : List Char,
      endpointNameOf modelId uuid
        = (afterFirstSep '/' modelId).map
            (fun s => s.takeWhile (fun c => c != '/') ++ '-' :: uuid)) ∧
    (∀ modelId u u' n n' : List Char, u ≠ u' →
      endpointNameOf modelId u = some n → endpointNameOf modelId u' = some n' →
      n ≠ n') ∧
    (∀ modelId uuid : List Char, '/' ∉ modelId →
      createModelCell modelId uuid = none) := by
  refine ⟨fun modelId uuid => ?_, ?_, fun modelId uuid h => ?_⟩
  · unfold endpointNameOf
    rw [splitOn_get?_one]
    cases afterFirstSep '/' modelId with
    | none => rfl
    | some s => rfl
  · intro modelId u u' n n' hu h1 h2 hnn
    rcases Option.map_eq_some'.1 h1 with ⟨f, hf, hn⟩
    rcases Option.map_eq_some'.1 h2 with ⟨f', hf', hn'⟩
    rw [hf] at hf'
    injection hf' with hff
    subst hff
    rw [← hn, ← hn'] at hnn
    exact hu (List.cons_injective (List.append_cancel_left hnn))
  · unfold createModelCell endpointNameOf
    rw [splitOn_get?_one, afterFirstSep_eq_none '/' modelId h]
    rfl

/-- C9 witness: distinct uuids `a` and `b` give distinct names for the
model id `"m/x"`, and for the slash-free model id `"mx"` no model object is
created. -/
theorem endpoint_name_construction_witness :
    (['x', '-', 'a'] : List Char) ≠ ['x', '-', 'b'] ∧
    createModelCell ['m', 'x'] ['a'] = none :=
  ⟨endpoint_name_construction.2.1 ['m', '/', 'x'] ['a'] ['b'] ['x', '-', 'a'] ['x', '-', 'b']
      (by decide) (by decide) (by decide),
   endpoint_name_construction.2.2 ['m', 'x'] ['a'] (by decide)⟩

end HFSageMaker
